import Mathlib

/-!
Verification of the HAGHS (Home Assistant Global Health Score) scoring
logic, a shallow embedding of `custom_components/haghs/sensor.py`.

The scoring pass (`HaghsSensor.async_update_sensor`) reads a snapshot of
the host's state machine (four named metric entities, the full entity
list, the recorder instance, and two file sizes), computes a hardware
sub-score and an application sub-score, combines them with weights
40/60, and publishes the result together with a recommendation list and
attributes.  Python floats are embedded as exact rationals; Python
`int()` is truncation toward zero; `try/except` blocks are modelled by
`Except`-valued bodies discharged through a `catchE` combinator.
-/

namespace Haghs

/-- Substring test on character lists: `leadsWith hay pat` holds when
`pat` is an initial segment of `hay`. -/
def leadsWith : List Char → List Char → Bool
  | _, [] => true
  | [], _ :: _ => false
  | a :: as, b :: bs => a == b && leadsWith as bs

/-- `hasSubL hay pat` holds when `pat` occurs contiguously in `hay`. -/
def hasSubL : List Char → List Char → Bool
  | [], pat => pat.isEmpty
  | h :: t, pat => leadsWith (h :: t) pat || hasSubL t pat

/-- Python's `pat in hay` on strings (substring containment). -/
def strContains (hay pat : String) : Bool :=
  hasSubL hay.toList pat.toList

/-- The state string of a metric entity, partitioned the way
`sensor.py` inspects it: the literal `unavailable` or `unknown`
constants, a string that `float()` parses to the rational `q`, or any
other string (on which `float()` raises `ValueError`). -/
inductive StateVal where
  | unavailable
  | unknown
  | num (q : ℚ)
  | raw (s : String)
deriving DecidableEq

/-- One record of `hass.states.async_all()`: entity id, domain, state
string, the `skipped` attribute, and the `friendly_name` attribute. -/
structure EntityState where
  entity_id : String
  domain : String
  state : String
  skipped : Option Bool
  friendly_name : Option String
deriving DecidableEq

/-- The recorder instance as consulted by `sensor.py`:
`commit_interval` and `keep_days` are `none` when `hasattr` fails, and
`db_url` is the configured database URL. -/
structure RecorderInfo where
  commit_interval : Option ℚ
  keep_days : Option ℚ
  db_url : String
deriving DecidableEq

/-- A snapshot of everything one evaluation reads from the host.
`psi`, `cpu`, `ram`, `disk_free` are the states of the named metric
entities (`none` when the entity does not exist); `ram` is present in
the host but never read by `sensor.py`.  `recorder = none` models
`recorder.get_instance` raising.  `sqlite_db_size` is the size in MB of
`home-assistant_v2.db` (`none`: file absent), `log_size_mb` the size in
MB of the configured log file (`none`: file absent). -/
structure Snapshot where
  psi : Option StateVal
  cpu : Option StateVal
  ram : Option StateVal
  disk_free : Option StateVal
  all_states : List EntityState
  recorder : Option RecorderInfo
  sqlite_db_size : Option ℚ
  log_size_mb : Option ℚ
deriving DecidableEq

/-- Static configuration of the sensor: the storage-type string chosen
in the config flow and the optional log-file path. -/
structure HaghsConfig where
  storage_type : String
  log_file_path : Option String
deriving DecidableEq

/-- One recommendation message.  Each constructor stands for one
distinct f-string appended to `self._recommendations` in `sensor.py`,
carrying the numeric payloads interpolated into the message. -/
inductive Rec where
  | psiChoking (psi_val : ℚ)
  | highCpu (val : ℚ)
  | criticalStorage (free_gb : ℚ)
  | lowStorage (free_gb : ℚ)
  | dbCritical (limit : ℤ)
  | dbLarge (limit : ℤ)
  | recorderCommit
  | recorderKeepDays (days : ℚ)
  | updatesPending (count : ℕ)
  | logLarge
  | highZombieRatio (ratio : ℚ)
deriving DecidableEq

/-- Python `int()` on a float: truncation toward zero. -/
def pyInt (q : ℚ) : ℤ :=
  if 0 ≤ q then ⌊q⌋ else ⌈q⌉

/-- Round-half-to-even to an integer, Python's `round` policy. -/
def roundHalfEven (q : ℚ) : ℤ :=
  if q - ⌊q⌋ < 1 / 2 then ⌊q⌋
  else if q - ⌊q⌋ > 1 / 2 then ⌊q⌋ + 1
  else if Even ⌊q⌋ then ⌊q⌋ else ⌊q⌋ + 1

/-- Python `round(q)`. -/
def pyRound0 (q : ℚ) : ℤ := roundHalfEven q

/-- Python `round(q, 1)`. -/
def pyRound1 (q : ℚ) : ℚ := (roundHalfEven (q * 10) : ℚ) / 10

/-- Python `round(q, 2)`. -/
def pyRound2 (q : ℚ) : ℚ := (roundHalfEven (q * 100) : ℚ) / 100

/-- Python `float(state)` on a metric state: succeeds exactly on
numeric state strings, raises `ValueError` otherwise. -/
def pyFloatE : StateVal → Except String ℚ
  | .num q => Except.ok q
  | _ => Except.error "ValueError"

/-- A `try/except: pass`-style handler: the value of the body, or the
fallback when the body raised. -/
def catchE {α : Type} (body : Except String α) (fallback : α) : α :=
  match body with
  | .ok v => v
  | .error _ => fallback

/-- The guard `state not in [STATE_UNAVAILABLE, STATE_UNKNOWN]`. -/
def stateUsable (v : StateVal) : Bool :=
  !(v == .unavailable || v == .unknown)

/-- Penalty and recommendations of one scoring section. -/
structure SecOut where
  pen : ℤ
  recs : List Rec
deriving DecidableEq

/-- Body of the `try` in section A of `_calc_hardware_score`: parse the
PSI state; above 5.0 it costs 20 points and a recommendation. -/
def psiTry (v : StateVal) : Except String SecOut := do
  let psi_val ← pyFloatE v
  if psi_val > 5.0 then pure ⟨20, [Rec.psiChoking psi_val]⟩ else pure ⟨0, []⟩

/-- Body of the fallback-CPU `try`: parse `sensor.processor_use`; above
85 it costs 20 points and a recommendation. -/
def cpuTry (v : StateVal) : Except String SecOut := do
  let val ← pyFloatE v
  if val > 85 then pure ⟨20, [Rec.highCpu val]⟩ else pure ⟨0, []⟩

/-- The fallback-CPU branch of section A of `_calc_hardware_score`. -/
def cpuFallback (s : Snapshot) : SecOut :=
  match s.cpu with
  | some v => if stateUsable v then catchE (cpuTry v) ⟨0, []⟩ else ⟨0, []⟩
  | none => ⟨0, []⟩

/-- Section A of `_calc_hardware_score`: PSI when present and usable,
otherwise the CPU fallback. -/
def psiCpuSection (s : Snapshot) : SecOut :=
  match s.psi with
  | some v => if stateUsable v then catchE (psiTry v) ⟨0, []⟩ else cpuFallback s
  | none => cpuFallback s

/-- Body of the `try` in section B of `_calc_hardware_score`: free disk
space below the critical limit costs 50, below the warning limit 10. -/
def diskTry (v : StateVal) (storage_type : String) : Except String SecOut := do
  let free_gb ← pyFloatE v
  let limit_critical : ℚ := if strContains storage_type "SSD" then 5 else 8
  let limit_warn : ℚ := if strContains storage_type "SSD" then 15 else 20
  if free_gb < limit_critical then pure ⟨50, [Rec.criticalStorage free_gb]⟩
  else if free_gb < limit_warn then pure ⟨10, [Rec.lowStorage free_gb]⟩
  else pure ⟨0, []⟩

/-- Section B of `_calc_hardware_score` (disk usage). -/
def diskSection (s : Snapshot) (storage_type : String) : SecOut :=
  match s.disk_free with
  | some v => if stateUsable v then catchE (diskTry v storage_type) ⟨0, []⟩ else ⟨0, []⟩
  | none => ⟨0, []⟩

/-- Result of `_calc_hardware_score`: the returned score and the
recommendations appended while computing it. -/
structure HwOut where
  score : ℤ
  recs : List Rec
deriving DecidableEq

/-- `HaghsSensor._calc_hardware_score`: start at 100, apply the PSI/CPU
and disk sections, return `max(0, score)`. -/
def calc_hardware_score (s : Snapshot) (cfg : HaghsConfig) : HwOut :=
  let a := psiCpuSection s
  let b := diskSection s cfg.storage_type
  ⟨max 0 (100 - a.pen - b.pen), a.recs ++ b.recs⟩

/-- `len(self.hass.states.async_all())`. -/
def total_entities (s : Snapshot) : ℕ := s.all_states.length

/-- `base_limit_mb = 1000 + (total_entities * 2.5)`. -/
def base_limit_mb (total : ℕ) : ℚ := 1000 + ((total : ℚ) * 2.5)

/-- The dynamic database warning limit: the base limit capped at 8000MB
for storage types containing `SSD` and at 2500MB otherwise. -/
def final_limit_warn (total : ℕ) (storage_type : String) : ℚ :=
  if strContains storage_type "SSD" then min (base_limit_mb total) 8000
  else min (base_limit_mb total) 2500

/-- `HaghsSensor._get_database_size`: inside a `try`, fetch the
recorder instance; for a `sqlite://` URL return the database file size,
otherwise `None`; any exception yields `None`. -/
def get_database_size (s : Snapshot) : Option ℚ :=
  catchE
    (do
      let inst ← match s.recorder with
        | some r => Except.ok r
        | none => Except.error "recorder unavailable"
      if strContains inst.db_url "sqlite://" then pure s.sqlite_db_size
      else pure none)
    none

/-- Output of the database section: penalty, recommendations, and the
two diagnostic attribute writes (`none` for `db_size_mb` renders as the
string `Unknown`). -/
structure DbOut where
  pen : ℤ
  recs : List Rec
  db_size_mb : Option ℚ
  db_limit_dynamic : Option ℚ
deriving DecidableEq

/-- Section A of `_calc_app_score`: compare the database size against
the dynamic limit; above 1.5x the warning limit costs 20, above the
warning limit 5.  A falsy size (`None` or 0) only records `Unknown`. -/
def dbSection (s : Snapshot) (storage_type : String) : DbOut :=
  let final_limit_warn := final_limit_warn (total_entities s) storage_type
  let final_limit_crit := final_limit_warn * 1.5
  match get_database_size s with
  | some db_size_mb =>
    if db_size_mb ≠ 0 then
      if db_size_mb > final_limit_crit then
        ⟨20, [Rec.dbCritical (pyRound0 final_limit_crit)],
          some (pyRound2 db_size_mb), some (pyRound2 final_limit_warn)⟩
      else if db_size_mb > final_limit_warn then
        ⟨5, [Rec.dbLarge (pyRound0 final_limit_warn)],
          some (pyRound2 db_size_mb), some (pyRound2 final_limit_warn)⟩
      else
        ⟨0, [], some (pyRound2 db_size_mb), some (pyRound2 final_limit_warn)⟩
    else ⟨0, [], none, none⟩
  | none => ⟨0, [], none, none⟩

/-- Section B of `_calc_app_score` (recorder audit): a commit interval
below 30 on storage containing `SD` costs 2; `keep_days` above 30 costs
5; a failing recorder lookup costs nothing. -/
def recorderSection (s : Snapshot) (storage_type : String) : SecOut :=
  match s.recorder with
  | none => ⟨0, []⟩
  | some inst =>
    let a : SecOut :=
      match inst.commit_interval with
      | some ci =>
        if ci < 30 ∧ strContains storage_type "SD" then ⟨2, [Rec.recorderCommit]⟩
        else ⟨0, []⟩
      | none => ⟨0, []⟩
    let b : SecOut :=
      match inst.keep_days with
      | some kd => if kd > 30 then ⟨5, [Rec.recorderKeepDays kd]⟩ else ⟨0, []⟩
      | none => ⟨0, []⟩
    ⟨a.pen + b.pen, a.recs ++ b.recs⟩

/-- The pending-update names: update-domain entities in state `on`,
skipping ignore-tagged or explicitly skipped ones, rendered by friendly
name with the entity id as fallback. -/
def pending_updates (s : Snapshot) : List String :=
  (s.all_states.filter fun st =>
    st.domain == "update" && st.state == "on"
      && !(strContains st.entity_id "haghs_ignore" || st.skipped == some true)).map
    fun st => st.friendly_name.getD st.entity_id

/-- Output of the updates section: penalty, recommendations, and the
two diagnostic attribute writes (set only when updates are pending). -/
structure UpdOut where
  pen : ℤ
  recs : List Rec
  pending : Option (List String)
  count : Option ℕ
deriving DecidableEq

/-- Section C of `_calc_app_score`: `count` pending updates cost
`min(15, count * 2)` and one recommendation. -/
def updatesSection (s : Snapshot) : UpdOut :=
  let pu := pending_updates s
  if pu ≠ [] then
    let count := pu.length
    ⟨min 15 ((count : ℤ) * 2), [Rec.updatesPending count], some pu, some count⟩
  else ⟨0, [], none, none⟩

/-- Section D of `_calc_app_score`: a configured (truthy) log path
whose file size exceeds 50MB costs 5. -/
def logSection (s : Snapshot) (cfg : HaghsConfig) : SecOut :=
  match cfg.log_file_path with
  | some p =>
    if p ≠ "" then
      match s.log_size_mb with
      | some log_size => if log_size ≠ 0 ∧ log_size > 50 then ⟨5, [Rec.logLarge]⟩ else ⟨0, []⟩
      | none => ⟨0, []⟩
    else ⟨0, []⟩
  | none => ⟨0, []⟩

/-- The zombie entity ids: entities in state `unavailable` or
`unknown`, ignore-tagged ones skipped. -/
def zombies (s : Snapshot) : List String :=
  (s.all_states.filter fun st =>
    (st.state == "unavailable" || st.state == "unknown")
      && !(strContains st.entity_id "haghs_ignore")).map
    fun st => st.entity_id

/-- Output of the zombie section: penalty, recommendations, and the
diagnostic attribute writes. -/
structure ZombieOut where
  pen : ℤ
  recs : List Rec
  zombie_entities : List String
  zombie_count : ℕ
  zombie_ratio_percent : Option ℚ
deriving DecidableEq

/-- Section E of `_calc_app_score`: with at least one entity and at
least one zombie, deduct `max(1, min(25, int(zombie_ratio * 2)))`
points where `zombie_ratio` is the zombie percentage, and recommend
when the ratio exceeds 5%. -/
def zombieSection (s : Snapshot) : ZombieOut :=
  let zs := zombies s
  let zombie_count := zs.length
  let total := total_entities s
  if total > 0 then
    let zombie_ratio : ℚ := ((zombie_count : ℚ) / (total : ℚ)) * 100
    if zombie_count > 0 then
      let deduction := max 1 (min 25 (pyInt (zombie_ratio * 2)))
      ⟨deduction,
        if zombie_ratio > 5 then [Rec.highZombieRatio (pyRound1 zombie_ratio)] else [],
        zs.take 20, zombie_count, some (pyRound2 zombie_ratio)⟩
    else ⟨0, [], zs.take 20, zombie_count, some (pyRound2 zombie_ratio)⟩
  else ⟨0, [], zs.take 20, zombie_count, none⟩

/-- The attribute writes `_calc_app_score` performs on the (soon to be
replaced) attribute mapping. -/
structure AppDiag where
  total_entities : ℕ
  db_size_mb : Option ℚ
  db_limit_dynamic : Option ℚ
  pending_updates : Option (List String)
  update_count : Option ℕ
  zombie_entities : List String
  zombie_count : ℕ
  zombie_ratio_percent : Option ℚ
deriving DecidableEq

/-- Result of `_calc_app_score`: the returned score, the
recommendations appended, and the diagnostic attribute writes. -/
structure AppOut where
  score : ℤ
  recs : List Rec
  diag : AppDiag
deriving DecidableEq

/-- `HaghsSensor._calc_app_score`: start at 100, apply the database,
recorder, updates, log and zombie sections, return `max(0, score)`. -/
def calc_app_score (s : Snapshot) (cfg : HaghsConfig) : AppOut :=
  let db := dbSection s cfg.storage_type
  let reco := recorderSection s cfg.storage_type
  let upd := updatesSection s
  let lg := logSection s cfg
  let zb := zombieSection s
  { score := max 0 (100 - db.pen - reco.pen - upd.pen - lg.pen - zb.pen),
    recs := db.recs ++ reco.recs ++ upd.recs ++ lg.recs ++ zb.recs,
    diag :=
      { total_entities := total_entities s,
        db_size_mb := db.db_size_mb,
        db_limit_dynamic := db.db_limit_dynamic,
        pending_updates := upd.pending,
        update_count := upd.count,
        zombie_entities := zb.zombie_entities,
        zombie_count := zb.zombie_count,
        zombie_ratio_percent := zb.zombie_ratio_percent } }

/-- The five-key attribute mapping assigned to `self._attributes` at
the end of `async_update_sensor` (it replaces the mapping the app
section wrote its diagnostics into). -/
structure Attributes where
  score_hardware : ℤ
  score_application : ℤ
  recommendations : List Rec
  storage_type : String
  last_updated : ℕ
deriving DecidableEq

/-- The observable outcome of one `async_update_sensor` run: the sensor
state, the published attributes, and the transient diagnostic writes
made by `_calc_app_score` before the attribute mapping was replaced. -/
structure UpdateResult where
  state : ℤ
  attributes : Attributes
  diag : AppDiag
deriving DecidableEq

/-- `HaghsSensor.async_update_sensor`: compute both pillars, combine
them as `int(hw * 0.4 + app * 0.6)`, and publish state and attributes.
`now` is the clock reading used for the `last_updated` attribute. -/
def async_update_sensor (s : Snapshot) (cfg : HaghsConfig) (now : ℕ) : UpdateResult :=
  let hw := calc_hardware_score s cfg
  let app := calc_app_score s cfg
  let global_score := pyInt ((hw.score : ℚ) * 0.4 + (app.score : ℚ) * 0.6)
  { state := global_score,
    attributes :=
      { score_hardware := hw.score,
        score_application := app.score,
        recommendations := hw.recs ++ app.recs,
        storage_type := cfg.storage_type,
        last_updated := now },
    diag := app.diag }

end Haghs

namespace Haghs

/-! ### Computation rules and bounds for the section functions -/


@[simp] lemma catchE_ok {α : Type} (v : α) (d : α) : catchE (Except.ok v) d = v := rfl

@[simp] lemma catchE_error {α : Type} (e : String) (d : α) : catchE (Except.error e) d = d := rfl

lemma psiTry_raw (str : String) : psiTry (.raw str) = Except.error "ValueError" := rfl

lemma psiTry_num (q : ℚ) :
    psiTry (.num q) =
      if q > 5.0 then Except.ok ⟨20, [Rec.psiChoking q]⟩ else Except.ok ⟨0, []⟩ := rfl

lemma cpuTry_num (q : ℚ) :
    cpuTry (.num q) =
      if q > 85 then Except.ok ⟨20, [Rec.highCpu q]⟩ else Except.ok ⟨0, []⟩ := rfl

/-- Closed form of the PSI/CPU section of the hardware pillar. -/
lemma psiCpuSection_eq (s : Snapshot) :
    psiCpuSection s =
      match s.psi with
      | some (.num q) => if q > 5.0 then ⟨20, [Rec.psiChoking q]⟩ else ⟨0, []⟩
      | some (.raw _) => ⟨0, []⟩
      | _ =>
        match s.cpu with
        | some (.num q) => if q > 85 then ⟨20, [Rec.highCpu q]⟩ else ⟨0, []⟩
        | _ => ⟨0, []⟩ := by
  have hfb : ∀ s' : Snapshot, cpuFallback s' =
      match s'.cpu with
      | some (.num q) => if q > 85 then ⟨20, [Rec.highCpu q]⟩ else ⟨0, []⟩
      | _ => (⟨0, []⟩ : SecOut) := by
    intro s'
    rcases hc : s'.cpu with _ | w
    · simp [cpuFallback, hc]
    · rcases w with _ | _ | q | str <;>
        simp only [cpuFallback, hc, stateUsable, cpuTry_num] <;>
        first
          | rfl
          | (by_cases hq : q > 85 <;> simp [hq])
  rcases hp : s.psi with _ | v
  · simpa [psiCpuSection, hp] using hfb s
  · rcases v with _ | _ | q | str
    · simpa [psiCpuSection, hp, stateUsable] using hfb s
    · simpa [psiCpuSection, hp, stateUsable] using hfb s
    · by_cases hq : q > 5.0 <;> simp [psiCpuSection, hp, stateUsable, psiTry_num, hq]
    · simp [psiCpuSection, hp, stateUsable, psiTry_raw]


lemma stateUsable_num (q : ℚ) : stateUsable (.num q) = true := rfl

lemma diskTry_raw (str : String) (storage_type : String) :
    diskTry (.raw str) storage_type = Except.error "ValueError" := rfl

lemma diskTry_num (q : ℚ) (storage_type : String) :
    diskTry (.num q) storage_type =
      (if q < (if strContains storage_type "SSD" then 5 else 8) then
        Except.ok ⟨50, [Rec.criticalStorage q]⟩
      else if q < (if strContains storage_type "SSD" then 15 else 20) then
        Except.ok ⟨10, [Rec.lowStorage q]⟩
      else Except.ok ⟨0, []⟩) := rfl

/-- Closed form of the disk section of the hardware pillar. -/
lemma diskSection_eq (s : Snapshot) (storage_type : String) :
    diskSection s storage_type =
      match s.disk_free with
      | some (.num free_gb) =>
        if free_gb < (if strContains storage_type "SSD" then 5 else 8) then
          ⟨50, [Rec.criticalStorage free_gb]⟩
        else if free_gb < (if strContains storage_type "SSD" then 15 else 20) then
          ⟨10, [Rec.lowStorage free_gb]⟩
        else ⟨0, []⟩
      | _ => ⟨0, []⟩ := by
  rcases hd : s.disk_free with _ | v
  · simp [diskSection, hd]
  · rcases v with _ | _ | q | str
    · simp [diskSection, hd, stateUsable]
    · simp [diskSection, hd, stateUsable]
    · simp only [diskSection, hd, stateUsable_num, if_true, diskTry_num]
      (repeat' split) <;> rfl
    · simp [diskSection, hd, stateUsable, diskTry_raw]

lemma psiCpuSection_pen_bounds (s : Snapshot) :
    0 ≤ (psiCpuSection s).pen ∧ (psiCpuSection s).pen ≤ 20 := by
  rw [psiCpuSection_eq]
  (repeat' split) <;> simp

lemma diskSection_pen_bounds (s : Snapshot) (storage_type : String) :
    0 ≤ (diskSection s storage_type).pen ∧ (diskSection s storage_type).pen ≤ 50 := by
  rw [diskSection_eq]
  (repeat' split) <;> simp

lemma calc_hardware_score_bounds (s : Snapshot) (cfg : HaghsConfig) :
    0 ≤ (calc_hardware_score s cfg).score ∧ (calc_hardware_score s cfg).score ≤ 100 := by
  have h1 := psiCpuSection_pen_bounds s
  have h2 := diskSection_pen_bounds s cfg.storage_type
  simp only [calc_hardware_score]
  omega


end Haghs

namespace Haghs

/-! ### Application-pillar helpers -/

lemma final_limit_warn_pos (total : ℕ) (storage_type : String) :
    0 < final_limit_warn total storage_type := by
  rw [final_limit_warn, base_limit_mb]
  have h : (0 : ℚ) ≤ (total : ℚ) * 2.5 := by positivity
  split <;> [skip; skip] <;> rw [lt_min_iff] <;> constructor <;> linarith

lemma dbSection_pen_bounds (s : Snapshot) (storage_type : String) :
    0 ≤ (dbSection s storage_type).pen ∧ (dbSection s storage_type).pen ≤ 20 := by
  rw [dbSection]
  (repeat' split) <;> simp

lemma recorderSection_pen_bounds (s : Snapshot) (storage_type : String) :
    0 ≤ (recorderSection s storage_type).pen ∧ (recorderSection s storage_type).pen ≤ 7 := by
  rw [recorderSection]
  (repeat' split) <;> simp

/-- The update penalty in closed form: `min(15, count * 2)`. -/
lemma updatesSection_pen_eq (s : Snapshot) :
    (updatesSection s).pen = min 15 (((pending_updates s).length : ℤ) * 2) := by
  rw [updatesSection]
  split
  · rfl
  · rename_i h
    rw [not_ne_iff] at h
    simp [h]

lemma updatesSection_pen_bounds (s : Snapshot) :
    0 ≤ (updatesSection s).pen ∧ (updatesSection s).pen ≤ 15 := by
  rw [updatesSection_pen_eq]
  have : (0 : ℤ) ≤ ((pending_updates s).length : ℤ) := by positivity
  omega

lemma logSection_pen_bounds (s : Snapshot) (cfg : HaghsConfig) :
    0 ≤ (logSection s cfg).pen ∧ (logSection s cfg).pen ≤ 5 := by
  rw [logSection]
  (repeat' split) <;> simp

/-- The zombie penalty in closed form: with at least one entity and at
least one zombie it is `max(1, min(25, int((zombies / total) * 100 * 2)))`,
otherwise 0. -/
lemma zombieSection_pen_eq (s : Snapshot) :
    (zombieSection s).pen =
      if 0 < total_entities s ∧ 0 < (zombies s).length then
        max 1 (min 25 (pyInt ((((zombies s).length : ℚ) / (total_entities s : ℚ)) * 100 * 2)))
      else 0 := by
  rw [zombieSection]
  rcases Nat.eq_zero_or_pos (total_entities s) with h | h
  · simp [h]
  · rcases Nat.eq_zero_or_pos (zombies s).length with hz | hz
    · simp [h, hz, Nat.pos_iff_ne_zero.mp h]
    · simp [h, hz, Nat.pos_iff_ne_zero.mp h, Nat.pos_iff_ne_zero.mp hz, mul_assoc]

lemma pyInt_nonneg (q : ℚ) (h : 0 ≤ q) : 0 ≤ pyInt q := by
  rw [pyInt, if_pos h]
  exact Int.floor_nonneg.mpr h

lemma zombieSection_pen_bounds (s : Snapshot) :
    0 ≤ (zombieSection s).pen ∧ (zombieSection s).pen ≤ 25 := by
  rw [zombieSection_pen_eq]
  split
  · constructor
    · exact le_trans (by norm_num) (le_max_left 1 _)
    · have h1 : min 25 (pyInt ((((zombies s).length : ℚ) / (total_entities s : ℚ)) * 100 * 2)) ≤ 25 :=
        min_le_left _ _
      omega
  · simp

lemma calc_app_score_bounds (s : Snapshot) (cfg : HaghsConfig) :
    0 ≤ (calc_app_score s cfg).score ∧ (calc_app_score s cfg).score ≤ 100 := by
  have h1 := dbSection_pen_bounds s cfg.storage_type
  have h2 := recorderSection_pen_bounds s cfg.storage_type
  have h3 := updatesSection_pen_bounds s
  have h4 := logSection_pen_bounds s cfg
  have h5 := zombieSection_pen_bounds s
  simp only [calc_app_score]
  omega

end Haghs

namespace Haghs

/-! ### Arithmetic helpers -/

lemma pyInt_eq (q : ℚ) (n : ℤ) (h0 : 0 ≤ n) (h1 : (n : ℚ) ≤ q) (h2 : q < n + 1) :
    pyInt q = n := by
  have hq : 0 ≤ q := le_trans (by exact_mod_cast h0) h1
  rw [pyInt, if_pos hq]
  exact Int.floor_eq_iff.mpr ⟨h1, h2⟩

lemma floor_hundred : ⌊(100 : ℚ)⌋ = 100 := by
  rw [show (100 : ℚ) = ((100 : ℤ) : ℚ) by norm_num, Int.floor_intCast]

/-- The weighted global combination of two sub-scores in `[0, 100]` is
their floored weighted sum, itself in `[0, 100]`. -/
lemma global_floor (A B : ℤ) (hA0 : 0 ≤ A) (hA1 : A ≤ 100) (hB0 : 0 ≤ B) (hB1 : B ≤ 100) :
    pyInt ((A : ℚ) * 0.4 + (B : ℚ) * 0.6) = ⌊(A : ℚ) * 0.4 + (B : ℚ) * 0.6⌋ ∧
      0 ≤ ⌊(A : ℚ) * 0.4 + (B : ℚ) * 0.6⌋ ∧ ⌊(A : ℚ) * 0.4 + (B : ℚ) * 0.6⌋ ≤ 100 := by
  have hA0q : (0 : ℚ) ≤ (A : ℚ) := by exact_mod_cast hA0
  have hA1q : (A : ℚ) ≤ 100 := by exact_mod_cast hA1
  have hB0q : (0 : ℚ) ≤ (B : ℚ) := by exact_mod_cast hB0
  have hB1q : (B : ℚ) ≤ 100 := by exact_mod_cast hB1
  have hq0 : (0 : ℚ) ≤ (A : ℚ) * 0.4 + (B : ℚ) * 0.6 := by nlinarith
  have hq1 : (A : ℚ) * 0.4 + (B : ℚ) * 0.6 ≤ 100 := by nlinarith
  refine ⟨by rw [pyInt, if_pos hq0], Int.floor_nonneg.mpr hq0, ?_⟩
  calc ⌊(A : ℚ) * 0.4 + (B : ℚ) * 0.6⌋ ≤ ⌊(100 : ℚ)⌋ := Int.floor_le_floor hq1
    _ = 100 := floor_hundred

/-! ### C1: the overall score is the clamped floored weighted sum -/

/-- C1: for every snapshot, configuration and clock reading, the sensor
state published by `async_update_sensor` equals
`floor(hardware_sub * 0.4 + application_sub * 0.6)` of the two published
sub-scores, and also equals that floor clamped to `[0, 100]` (the clamp
is satisfied automatically). -/
theorem c1_overall_score_formula (s : Snapshot) (cfg : HaghsConfig) (now : ℕ) :
    (async_update_sensor s cfg now).state =
      ⌊((async_update_sensor s cfg now).attributes.score_hardware : ℚ) * 0.4 +
        ((async_update_sensor s cfg now).attributes.score_application : ℚ) * 0.6⌋ ∧
    (async_update_sensor s cfg now).state =
      max 0 (min 100
        ⌊((async_update_sensor s cfg now).attributes.score_hardware : ℚ) * 0.4 +
          ((async_update_sensor s cfg now).attributes.score_application : ℚ) * 0.6⌋) := by
  have h1 := calc_hardware_score_bounds s cfg
  have h2 := calc_app_score_bounds s cfg
  have hg := global_floor (calc_hardware_score s cfg).score (calc_app_score s cfg).score
    h1.1 h1.2 h2.1 h2.2
  simp only [async_update_sensor]
  exact ⟨hg.1, by omega⟩

/-! ### C2: all published scores lie in [0, 100] -/

/-- C2: for every snapshot, configuration and clock reading, the
published overall score, hardware sub-score and application sub-score
all lie in the interval `[0, 100]`. -/
theorem c2_scores_in_range (s : Snapshot) (cfg : HaghsConfig) (now : ℕ) :
    0 ≤ (async_update_sensor s cfg now).state ∧ (async_update_sensor s cfg now).state ≤ 100 ∧
    0 ≤ (async_update_sensor s cfg now).attributes.score_hardware ∧
      (async_update_sensor s cfg now).attributes.score_hardware ≤ 100 ∧
    0 ≤ (async_update_sensor s cfg now).attributes.score_application ∧
      (async_update_sensor s cfg now).attributes.score_application ≤ 100 := by
  have h1 := calc_hardware_score_bounds s cfg
  have h2 := calc_app_score_bounds s cfg
  have hg := global_floor (calc_hardware_score s cfg).score (calc_app_score s cfg).score
    h1.1 h1.2 h2.1 h2.2
  simp only [async_update_sensor]
  refine ⟨by omega, by omega, h1.1, h1.2, h2.1, h2.2⟩

/-! ### C8: evaluation is deterministic apart from the timestamp -/

/-- C8: two runs of `async_update_sensor` on the same snapshot and
configuration at different clock readings agree on the sensor state,
every published attribute other than `last_updated`, and all transient
diagnostic writes. -/
theorem c8_deterministic (s : Snapshot) (cfg : HaghsConfig) (t1 t2 : ℕ) :
    (async_update_sensor s cfg t1).state = (async_update_sensor s cfg t2).state ∧
    (async_update_sensor s cfg t1).attributes.score_hardware =
      (async_update_sensor s cfg t2).attributes.score_hardware ∧
    (async_update_sensor s cfg t1).attributes.score_application =
      (async_update_sensor s cfg t2).attributes.score_application ∧
    (async_update_sensor s cfg t1).attributes.recommendations =
      (async_update_sensor s cfg t2).attributes.recommendations ∧
    (async_update_sensor s cfg t1).attributes.storage_type =
      (async_update_sensor s cfg t2).attributes.storage_type ∧
    (async_update_sensor s cfg t1).diag = (async_update_sensor s cfg t2).diag :=
  ⟨rfl, rfl, rfl, rfl, rfl, rfl⟩

/-! ### C10: any zombie forces an application sub-score below 100 -/

/-- C10: whenever the snapshot has at least one entity and at least one
non-ignored zombie, the zombie deduction is at least 1 point, so the
application sub-score is strictly below 100 however many entities there
are. -/
theorem c10_zombie_forces_deduction (s : Snapshot) (cfg : HaghsConfig)
    (h1 : 0 < total_entities s) (h2 : 0 < (zombies s).length) :
    1 ≤ (zombieSection s).pen ∧ (calc_app_score s cfg).score < 100 := by
  have hz : 1 ≤ (zombieSection s).pen := by
    rw [zombieSection_pen_eq, if_pos ⟨h1, h2⟩]
    exact le_max_left 1 _
  have hdb := dbSection_pen_bounds s cfg.storage_type
  have hrec := recorderSection_pen_bounds s cfg.storage_type
  have hupd := updatesSection_pen_bounds s
  have hlog := logSection_pen_bounds s cfg
  refine ⟨hz, ?_⟩
  simp only [calc_app_score]
  omega

/-- A one-entity snapshot whose single entity is a zombie. -/
def snapOneZombie : Snapshot :=
  ⟨none, none, none, none, [⟨"sensor.dead", "sensor", "unavailable", none, none⟩],
    none, none, none⟩

/-- Default configuration: SSD/NVMe storage, no log file. -/
def cfgSSD : HaghsConfig := ⟨"SSD/NVMe", none⟩

/-- Witness for C10 at the one-zombie snapshot. -/
theorem c10_zombie_forces_deduction_witness :
    (0 < total_entities snapOneZombie ∧ 0 < (zombies snapOneZombie).length) ∧
      (1 ≤ (zombieSection snapOneZombie).pen ∧
        (calc_app_score snapOneZombie cfgSSD).score < 100) :=
  ⟨⟨by decide, by decide⟩,
    c10_zombie_forces_deduction snapOneZombie cfgSSD (by decide) (by decide)⟩

end Haghs

namespace Haghs

/-! ### C3: the zombie penalty formula -/

/-- An ordinary healthy entity. -/
def entKitchen : EntityState := ⟨"light.kitchen", "light", "on", none, none⟩

/-- An unavailable (zombie) entity. -/
def entDead : EntityState := ⟨"sensor.dead", "sensor", "unavailable", none, none⟩

/-- A snapshot with two entities, one of which is a zombie. -/
def snapHalfZombie : Snapshot := ⟨none, none, none, none, [entDead, entKitchen], none, none, none⟩

/-- C3 counterexample: with 1 zombie among 2 entities the code deducts
`max(1, min(25, int(50 * 2))) = 25` points, not the claimed
`min(40, (1 / max(1, 2)) * 100) = 40`. -/
theorem c3_counterexample :
    (zombieSection snapHalfZombie).pen = 25 ∧
      ((zombieSection snapHalfZombie).pen : ℚ) ≠
        min 40 ((((zombies snapHalfZombie).length : ℚ) /
          (max 1 (total_entities snapHalfZombie) : ℚ)) * 100) := by
  have hz : zombies snapHalfZombie = ["sensor.dead"] := rfl
  have ht : total_entities snapHalfZombie = 2 := rfl
  have hpy : pyInt (100 : ℚ) = 100 := by
    apply pyInt_eq <;> norm_num
  have hpen : (zombieSection snapHalfZombie).pen = 25 := by
    simp only [zombieSection, hz, ht, List.length_cons, List.length_nil]
    norm_num [hpy]
  refine ⟨hpen, ?_⟩
  rw [hpen, hz, ht]
  norm_num

/-- C3 amended: the zombie penalty is
`max(1, min(25, int(200 * zombie_count / total_entities)))` whenever at
least one entity and at least one non-ignored zombie exist, and 0
otherwise; the denominator counts all entities of the snapshot. -/
theorem c3_amended_zombie_penalty (s : Snapshot) :
    (zombieSection s).pen =
      if 0 < s.all_states.length ∧ 0 < (zombies s).length then
        max 1 (min 25 (pyInt (200 * ((zombies s).length : ℚ) / (s.all_states.length : ℚ))))
      else 0 := by
  have harg : (((zombies s).length : ℚ) / ((s.all_states.length : ℕ) : ℚ)) * 100 * 2
      = 200 * ((zombies s).length : ℚ) / (s.all_states.length : ℚ) := by
    rw [div_mul_eq_mul_div, div_mul_eq_mul_div]
    congr 1
    ring
  rw [zombieSection_pen_eq]
  simp only [total_entities]
  rw [harg]

/-! ### C4: the pending-update penalty formula -/

/-- A pending update entity. -/
def entCoreUpdate : EntityState := ⟨"update.core", "update", "on", none, some "Core"⟩

/-- A snapshot with exactly one pending update. -/
def snapOneUpdate : Snapshot := ⟨none, none, none, none, [entCoreUpdate], none, none, none⟩

/-- C4 counterexample: with one pending update the code deducts
`min(15, 1 * 2) = 2` points, not the claimed `min(30, 1 * 5) = 5`. -/
theorem c4_counterexample :
    (updatesSection snapOneUpdate).pen = 2 ∧
      (updatesSection snapOneUpdate).pen ≠
        min 30 (((pending_updates snapOneUpdate).length : ℤ) * 5) := by
  have h : pending_updates snapOneUpdate = ["Core"] := rfl
  constructor
  · rw [updatesSection_pen_eq, h]
    decide
  · rw [updatesSection_pen_eq, h]
    decide

/-- C4 amended: the pending-update penalty is `min(15, count * 2)`,
where `count` is the number of update-domain entities in state `on`
that are neither ignore-tagged nor skipped. -/
theorem c4_amended_update_penalty (s : Snapshot) :
    (updatesSection s).pen = min 15 (((pending_updates s).length : ℤ) * 2) :=
  updatesSection_pen_eq s

end Haghs

namespace Haghs

/-! ### C5: the database-size penalty policy -/

/-- A snapshot with no entities, a sqlite recorder, and a 1600MB
database. -/
def snapDb1600 : Snapshot :=
  ⟨none, none, none, none, [], some ⟨none, none, "sqlite://home"⟩, some 1600, none⟩

/-- C5 counterexample: with SSD storage, no entities and a 1600MB
database, the claimed limit is `min(8000, 1000 + 0*2.5) = 1000` and the
claimed penalty `min(30, floor((1600-1000)/500)*10) = 10`, but the code
deducts 20 (its critical threshold is `1.5 * limit = 1500 < 1600`). -/
theorem c5_counterexample :
    min (8000 : ℚ) (1000 + (total_entities snapDb1600 : ℚ) * 2.5) = 1000 ∧
      (dbSection snapDb1600 "SSD/NVMe").pen = 20 ∧
      (dbSection snapDb1600 "SSD/NVMe").pen ≠
        min 30 (⌊((1600 : ℚ) - 1000) / 500⌋ * 10) := by
  have ht : total_entities snapDb1600 = 0 := rfl
  have hs : strContains "SSD/NVMe" "SSD" = true := by decide
  have hdb : get_database_size snapDb1600 = some 1600 := rfl
  have hw : final_limit_warn (total_entities snapDb1600) "SSD/NVMe" = 1000 := by
    rw [ht, final_limit_warn, base_limit_mb, if_pos hs]
    norm_num
  have hpen : (dbSection snapDb1600 "SSD/NVMe").pen = 20 := by
    simp only [dbSection, hdb, hw]
    norm_num
  have hfl : ⌊((1600 : ℚ) - 1000) / 500⌋ = 1 := by
    rw [Int.floor_eq_iff]
    constructor <;> norm_num
  refine ⟨by rw [ht]; norm_num, hpen, ?_⟩
  rw [hpen, hfl]
  decide

/-- C5 amended: the dynamic warning limit is
`min(cap, 1000 + total_entities * 2.5)` with `cap = 8000` when the
storage-type string contains `SSD` and `cap = 2500` otherwise (so SD
Card, HDD and Virtual/Container all get the 2500MB cap); when the
database size is known and nonzero, the penalty is a two-step policy:
20 points above `1.5 * limit`, 5 points above `limit`, otherwise 0 —
not a graded `min(30, floor((size - limit)/500)*10)` scale. -/
theorem c5_amended_db_penalty (s : Snapshot) (cfg : HaghsConfig) :
    final_limit_warn (total_entities s) cfg.storage_type =
      min (if strContains cfg.storage_type "SSD" then (8000 : ℚ) else 2500)
        (1000 + (total_entities s : ℚ) * 2.5) ∧
    (dbSection s cfg.storage_type).pen =
      match get_database_size s with
      | some v =>
        if v = 0 then 0
        else if v > final_limit_warn (total_entities s) cfg.storage_type * 1.5 then 20
        else if v > final_limit_warn (total_entities s) cfg.storage_type then 5
        else 0
      | none => 0 := by
  constructor
  · rw [final_limit_warn, base_limit_mb]
    split <;> rw [min_comm]
  · rcases hdb : get_database_size s with _ | v
    · simp [dbSection, hdb]
    · simp only [dbSection, hdb]
      by_cases hv : v = 0
      · simp [hv]
      · simp only [hv, ne_eq, not_false_eq_true, if_true, if_false, ite_not]
        (repeat' split) <;> simp_all
  
end Haghs

namespace Haghs

/-! ### Monotonicity helpers -/

/-- Closed form of the database penalty. -/
lemma dbSection_pen_eq (s : Snapshot) (storage_type : String) :
    (dbSection s storage_type).pen =
      match get_database_size s with
      | some v =>
        if v = 0 then 0
        else if v > final_limit_warn (total_entities s) storage_type * 1.5 then 20
        else if v > final_limit_warn (total_entities s) storage_type then 5
        else 0
      | none => 0 := by
  rcases hdb : get_database_size s with _ | v
  · simp [dbSection, hdb]
  · simp only [dbSection, hdb]
    by_cases hv : v = 0
    · simp [hv]
    · simp only [hv, ne_eq, not_false_eq_true, if_true, if_false, ite_not]
      (repeat' split) <;> simp_all

/-- The hardware score is antitone in the PSI reading. -/
lemma hw_mono_psi (s : Snapshot) (cfg : HaghsConfig) (v w : ℚ) (hvw : v ≤ w) :
    (calc_hardware_score { s with psi := some (.num w) } cfg).score ≤
      (calc_hardware_score { s with psi := some (.num v) } cfg).score := by
  have hv : psiCpuSection { s with psi := some (.num v) } =
      if v > 5.0 then ⟨20, [Rec.psiChoking v]⟩ else ⟨0, []⟩ := by
    rw [psiCpuSection_eq]
  have hw : psiCpuSection { s with psi := some (.num w) } =
      if w > 5.0 then ⟨20, [Rec.psiChoking w]⟩ else ⟨0, []⟩ := by
    rw [psiCpuSection_eq]
  have hd : diskSection { s with psi := some (.num w) } cfg.storage_type =
      diskSection { s with psi := some (.num v) } cfg.storage_type := rfl
  simp only [calc_hardware_score, hv, hw, hd]
  have hpen : (if v > 5.0 then (⟨20, [Rec.psiChoking v]⟩ : SecOut) else ⟨0, []⟩).pen ≤
      (if w > 5.0 then (⟨20, [Rec.psiChoking w]⟩ : SecOut) else ⟨0, []⟩).pen := by
    split_ifs <;> simp_all <;> linarith
  omega


/-- The hardware score is antitone in the fallback CPU reading. -/
lemma hw_mono_cpu (s : Snapshot) (cfg : HaghsConfig) (v w : ℚ) (hvw : v ≤ w) :
    (calc_hardware_score { s with cpu := some (.num w) } cfg).score ≤
      (calc_hardware_score { s with cpu := some (.num v) } cfg).score := by
  have hd : diskSection { s with cpu := some (.num w) } cfg.storage_type =
      diskSection { s with cpu := some (.num v) } cfg.storage_type := rfl
  have hpen : (psiCpuSection { s with cpu := some (.num v) }).pen ≤
      (psiCpuSection { s with cpu := some (.num w) }).pen := by
    rw [psiCpuSection_eq, psiCpuSection_eq]
    rcases hp : s.psi with _ | vv
    · simp only
      split_ifs <;> simp_all <;> linarith
    · rcases vv with _ | _ | q | str
      · simp only
        split_ifs <;> simp_all <;> linarith
      · simp only
        split_ifs <;> simp_all <;> linarith
      · simp only
        split_ifs <;> simp
      · simp only
        exact le_refl _
  simp only [calc_hardware_score, hd]
  omega

/-- The hardware score ignores the RAM metric entirely. -/
lemma hw_ram_invariant (s : Snapshot) (cfg : HaghsConfig) (x y : Option StateVal) :
    calc_hardware_score { s with ram := x } cfg = calc_hardware_score { s with ram := y } cfg := rfl

/-- The hardware score is monotone in the amount of free disk space. -/
lemma hw_mono_disk (s : Snapshot) (cfg : HaghsConfig) (v w : ℚ) (hvw : v ≤ w) :
    (calc_hardware_score { s with disk_free := some (.num v) } cfg).score ≤
      (calc_hardware_score { s with disk_free := some (.num w) } cfg).score := by
  have hp : psiCpuSection { s with disk_free := some (.num w) } =
      psiCpuSection { s with disk_free := some (.num v) } := rfl
  have hcw : (if strContains cfg.storage_type "SSD" then (5:ℚ) else 8) ≤
      (if strContains cfg.storage_type "SSD" then (15:ℚ) else 20) := by
    split <;> norm_num
  have hpen : (diskSection { s with disk_free := some (.num w) } cfg.storage_type).pen ≤
      (diskSection { s with disk_free := some (.num v) } cfg.storage_type).pen := by
    rw [diskSection_eq, diskSection_eq]
    simp only
    split_ifs <;> simp_all <;> linarith
  simp only [calc_hardware_score, hp]
  omega


lemma pyInt_mono (a b : ℚ) (h0 : 0 ≤ a) (h : a ≤ b) : pyInt a ≤ pyInt b := by
  rw [pyInt, pyInt, if_pos h0, if_pos (le_trans h0 h)]
  exact Int.floor_le_floor h

lemma get_database_size_congr (s t : Snapshot)
    (h1 : t.recorder = s.recorder) (h2 : t.sqlite_db_size = s.sqlite_db_size) :
    get_database_size t = get_database_size s := by
  simp only [get_database_size, h1, h2]

lemma dbSection_pen_congr (s t : Snapshot) (storage_type : String)
    (hlen : t.all_states.length = s.all_states.length)
    (hdb : get_database_size t = get_database_size s) :
    (dbSection t storage_type).pen = (dbSection s storage_type).pen := by
  simp only [dbSection_pen_eq, total_entities, hlen, hdb]

lemma recorderSection_congr (s t : Snapshot) (storage_type : String)
    (h1 : t.recorder = s.recorder) :
    recorderSection t storage_type = recorderSection s storage_type := by
  simp only [recorderSection, h1]

lemma logSection_congr (s t : Snapshot) (cfg : HaghsConfig)
    (h1 : t.log_size_mb = s.log_size_mb) :
    logSection t cfg = logSection s cfg := by
  simp only [logSection, h1]

/-- With a fixed entity total, the zombie penalty is monotone in the
number of zombies. -/
lemma zombiePen_mono (s t : Snapshot)
    (hlen : t.all_states.length = s.all_states.length)
    (hz : (zombies s).length ≤ (zombies t).length) :
    (zombieSection s).pen ≤ (zombieSection t).pen := by
  rw [zombieSection_pen_eq, zombieSection_pen_eq]
  simp only [total_entities, hlen]
  rcases Nat.eq_zero_or_pos s.all_states.length with h0 | h0
  · simp [h0]
  · rcases Nat.eq_zero_or_pos (zombies s).length with hz0 | hz0
    · rw [if_neg (by omega)]
      split
      · have h1 : (1 : ℤ) ≤ max 1 (min 25 (pyInt
            ((((zombies t).length : ℚ) / (s.all_states.length : ℚ)) * 100 * 2))) :=
          le_max_left 1 _
        omega
      · exact le_refl 0
  
    · rw [if_pos ⟨h0, hz0⟩, if_pos ⟨h0, by omega⟩]
      have hq : (((zombies s).length : ℚ) / (s.all_states.length : ℚ)) * 100 * 2 ≤
          (((zombies t).length : ℚ) / (s.all_states.length : ℚ)) * 100 * 2 := by
        have hden : (0 : ℚ) < (s.all_states.length : ℚ) := by exact_mod_cast h0
        have hnum : ((zombies s).length : ℚ) ≤ ((zombies t).length : ℚ) := by exact_mod_cast hz
        have := (div_le_div_iff_of_pos_right hden).mpr hnum
        nlinarith
      have hq0 : (0 : ℚ) ≤ (((zombies s).length : ℚ) / (s.all_states.length : ℚ)) * 100 * 2 := by
        positivity
      have := pyInt_mono _ _ hq0 hq
      omega

/-- Increasing only the zombie count never increases the application
sub-score. -/
lemma app_mono_zombies (s t : Snapshot) (cfg : HaghsConfig)
    (h1 : t.recorder = s.recorder) (h2 : t.sqlite_db_size = s.sqlite_db_size)
    (h3 : t.log_size_mb = s.log_size_mb)
    (h4 : t.all_states.length = s.all_states.length)
    (h5 : (pending_updates t).length = (pending_updates s).length)
    (h6 : (zombies s).length ≤ (zombies t).length) :
    (calc_app_score t cfg).score ≤ (calc_app_score s cfg).score := by
  have hdb := dbSection_pen_congr s t cfg.storage_type h4 (get_database_size_congr s t h1 h2)
  have hrec := recorderSection_congr s t cfg.storage_type h1
  have hlog := logSection_congr s t cfg h3
  have hupd : (updatesSection t).pen = (updatesSection s).pen := by
    rw [updatesSection_pen_eq, updatesSection_pen_eq, h5]
  have hzb := zombiePen_mono s t h4 h6
  simp only [calc_app_score, hdb, hrec, hlog, hupd]
  omega

/-- Increasing only the pending-update count never increases the
application sub-score. -/
lemma app_mono_updates (s t : Snapshot) (cfg : HaghsConfig)
    (h1 : t.recorder = s.recorder) (h2 : t.sqlite_db_size = s.sqlite_db_size)
    (h3 : t.log_size_mb = s.log_size_mb)
    (h4 : t.all_states.length = s.all_states.length)
    (h5 : (zombies t).length = (zombies s).length)
    (h6 : (pending_updates s).length ≤ (pending_updates t).length) :
    (calc_app_score t cfg).score ≤ (calc_app_score s cfg).score := by
  have hdb := dbSection_pen_congr s t cfg.storage_type h4 (get_database_size_congr s t h1 h2)
  have hrec := recorderSection_congr s t cfg.storage_type h1
  have hlog := logSection_congr s t cfg h3
  have hzb : (zombieSection t).pen = (zombieSection s).pen := by
    rw [zombieSection_pen_eq, zombieSection_pen_eq]
    simp only [total_entities, h4, h5]
  have hupd : (updatesSection s).pen ≤ (updatesSection t).pen := by
    rw [updatesSection_pen_eq, updatesSection_pen_eq]
    have : ((pending_updates s).length : ℤ) ≤ ((pending_updates t).length : ℤ) := by
      exact_mod_cast h6
    omega
  simp only [calc_app_score, hdb, hrec, hlog, hzb]
  omega

/-- Computation rule for `Except` bind on a success. -/
lemma except_bind_ok {α β : Type} (a : α) (f : α → Except String β) :
    (Except.ok a >>= f) = f a := rfl

/-- Closed form of `_get_database_size`. -/
lemma get_database_size_eq (s : Snapshot) :
    get_database_size s =
      match s.recorder with
      | none => none
      | some r => if strContains r.db_url "sqlite://" then s.sqlite_db_size else none := by
  rcases h : s.recorder with _ | r
  · simp only [get_database_size, h]
    rfl
  · simp only [get_database_size, h, except_bind_ok]
    split <;> rfl

/-- Increasing only the database size never increases the application
sub-score. -/
lemma app_mono_db (s : Snapshot) (cfg : HaghsConfig) (v w : ℚ) (h0 : 0 ≤ v) (hvw : v ≤ w) :
    (calc_app_score { s with sqlite_db_size := some w } cfg).score ≤
      (calc_app_score { s with sqlite_db_size := some v } cfg).score := by
  have hpen : (dbSection { s with sqlite_db_size := some v } cfg.storage_type).pen ≤
      (dbSection { s with sqlite_db_size := some w } cfg.storage_type).pen := by
    rw [dbSection_pen_eq, dbSection_pen_eq, get_database_size_eq, get_database_size_eq]
    simp only [total_entities]
    rcases hri : s.recorder with _ | r
    · simp [hri]
    · by_cases hurl : strContains r.db_url "sqlite://"
      · simp only [hri, hurl, if_true]
        have hL := final_limit_warn_pos s.all_states.length cfg.storage_type
        rw [final_limit_warn] at hL
        by_cases hv0 : v = 0
        · simp only [hv0, if_true, if_pos rfl]
          split_ifs <;> omega
        · have hv0' : 0 < v := lt_of_le_of_ne h0 (Ne.symm hv0)
          have hw0 : ¬ w = 0 := by
            intro h
            rw [h] at hvw
            linarith
          simp only [hv0, hw0, if_false]
          split_ifs <;> first | omega | linarith
      · simp [hri, hurl]
  have hrec : recorderSection { s with sqlite_db_size := some w } cfg.storage_type =
      recorderSection { s with sqlite_db_size := some v } cfg.storage_type := rfl
  have hlog : logSection { s with sqlite_db_size := some w } cfg =
      logSection { s with sqlite_db_size := some v } cfg := rfl
  have hupd : updatesSection { s with sqlite_db_size := some w } =
      updatesSection { s with sqlite_db_size := some v } := rfl
  have hzb : zombieSection { s with sqlite_db_size := some w } =
      zombieSection { s with sqlite_db_size := some v } := rfl
  simp only [calc_app_score, hrec, hlog, hupd, hzb]
  omega


end Haghs

namespace Haghs

/-! ### C6: the scores are antitone in load -/

/-- C6: raising the PSI or fallback-CPU reading never raises the
hardware sub-score, the hardware sub-score ignores RAM, and less free
disk space (higher disk utilization) never raises it; turning entities
into zombies (same totals otherwise), adding pending updates, or
growing the database never raises the application sub-score. -/
theorem c6_monotonicity :
    (∀ (s : Snapshot) (cfg : HaghsConfig) (v w : ℚ), v ≤ w →
      (calc_hardware_score { s with psi := some (.num w) } cfg).score ≤
        (calc_hardware_score { s with psi := some (.num v) } cfg).score) ∧
    (∀ (s : Snapshot) (cfg : HaghsConfig) (v w : ℚ), v ≤ w →
      (calc_hardware_score { s with cpu := some (.num w) } cfg).score ≤
        (calc_hardware_score { s with cpu := some (.num v) } cfg).score) ∧
    (∀ (s : Snapshot) (cfg : HaghsConfig) (x y : Option StateVal),
      calc_hardware_score { s with ram := x } cfg =
        calc_hardware_score { s with ram := y } cfg) ∧
    (∀ (s : Snapshot) (cfg : HaghsConfig) (v w : ℚ), v ≤ w →
      (calc_hardware_score { s with disk_free := some (.num v) } cfg).score ≤
        (calc_hardware_score { s with disk_free := some (.num w) } cfg).score) ∧
    (∀ (s t : Snapshot) (cfg : HaghsConfig),
      t.recorder = s.recorder → t.sqlite_db_size = s.sqlite_db_size →
      t.log_size_mb = s.log_size_mb → t.all_states.length = s.all_states.length →
      (pending_updates t).length = (pending_updates s).length →
      (zombies s).length ≤ (zombies t).length →
      (calc_app_score t cfg).score ≤ (calc_app_score s cfg).score) ∧
    (∀ (s t : Snapshot) (cfg : HaghsConfig),
      t.recorder = s.recorder → t.sqlite_db_size = s.sqlite_db_size →
      t.log_size_mb = s.log_size_mb → t.all_states.length = s.all_states.length →
      (zombies t).length = (zombies s).length →
      (pending_updates s).length ≤ (pending_updates t).length →
      (calc_app_score t cfg).score ≤ (calc_app_score s cfg).score) ∧
    (∀ (s : Snapshot) (cfg : HaghsConfig) (v w : ℚ), 0 ≤ v → v ≤ w →
      (calc_app_score { s with sqlite_db_size := some w } cfg).score ≤
        (calc_app_score { s with sqlite_db_size := some v } cfg).score) :=
  ⟨hw_mono_psi, hw_mono_cpu, hw_ram_invariant, hw_mono_disk,
    app_mono_zombies, app_mono_updates, app_mono_db⟩

/-- Two healthy entities. -/
def snapTwoHealthy : Snapshot :=
  ⟨none, none, none, none, [entKitchen, entKitchen], none, none, none⟩

/-- A pending update next to a healthy entity. -/
def snapUpdatePending : Snapshot :=
  ⟨none, none, none, none, [entCoreUpdate, entKitchen], none, none, none⟩

/-- Witness for C6: every monotonicity clause instantiated at concrete
snapshots. -/
theorem c6_monotonicity_witness :
    (calc_hardware_score { snapOneZombie with psi := some (.num 7) } cfgSSD).score ≤
      (calc_hardware_score { snapOneZombie with psi := some (.num 3) } cfgSSD).score ∧
    (calc_hardware_score { snapOneZombie with cpu := some (.num 90) } cfgSSD).score ≤
      (calc_hardware_score { snapOneZombie with cpu := some (.num 80) } cfgSSD).score ∧
    calc_hardware_score { snapOneZombie with ram := some (.num 50) } cfgSSD =
      calc_hardware_score { snapOneZombie with ram := none } cfgSSD ∧
    (calc_hardware_score { snapOneZombie with disk_free := some (.num 3) } cfgSSD).score ≤
      (calc_hardware_score { snapOneZombie with disk_free := some (.num 30) } cfgSSD).score ∧
    (calc_app_score snapHalfZombie cfgSSD).score ≤
      (calc_app_score snapTwoHealthy cfgSSD).score ∧
    (calc_app_score snapUpdatePending cfgSSD).score ≤
      (calc_app_score snapTwoHealthy cfgSSD).score ∧
    (calc_app_score { snapDb1600 with sqlite_db_size := some 200 } cfgSSD).score ≤
      (calc_app_score { snapDb1600 with sqlite_db_size := some 100 } cfgSSD).score :=
  ⟨c6_monotonicity.1 snapOneZombie cfgSSD 3 7 (by norm_num),
    c6_monotonicity.2.1 snapOneZombie cfgSSD 80 90 (by norm_num),
    c6_monotonicity.2.2.1 snapOneZombie cfgSSD (some (.num 50)) none,
    c6_monotonicity.2.2.2.1 snapOneZombie cfgSSD 3 30 (by norm_num),
    c6_monotonicity.2.2.2.2.1 snapTwoHealthy snapHalfZombie cfgSSD rfl rfl rfl rfl rfl
      (by decide),
    c6_monotonicity.2.2.2.2.2.1 snapTwoHealthy snapUpdatePending cfgSSD rfl rfl rfl rfl rfl
      (by decide),
    c6_monotonicity.2.2.2.2.2.2 snapDb1600 cfgSSD 100 200 (by norm_num) (by norm_num)⟩

end Haghs

namespace Haghs

/-! ### C7 and C9: error handling and recommendation assembly -/

/-- C7: failures degrade to neutral defaults and never spread: a PSI
and CPU pair with no numeric reading contributes no penalty, likewise a
non-numeric disk metric; a failing recorder lookup zeroes the recorder
penalty and makes the database size unknown; an unknown database size
zeroes the database penalty, marks the diagnostic `Unknown` (`none`)
and emits nothing; a missing log file contributes nothing; and a
non-numeric PSI reading leaves the disk section and the whole
application pillar untouched. -/
theorem c7_failures_degrade_neutrally (s : Snapshot) (cfg : HaghsConfig) :
    ((∀ q, s.psi ≠ some (.num q)) → (∀ q, s.cpu ≠ some (.num q)) →
      (psiCpuSection s).pen = 0) ∧
    ((∀ q, s.disk_free ≠ some (.num q)) → (diskSection s cfg.storage_type).pen = 0) ∧
    (s.recorder = none →
      get_database_size s = none ∧ (recorderSection s cfg.storage_type).pen = 0) ∧
    (get_database_size s = none →
      (dbSection s cfg.storage_type).pen = 0 ∧
      (dbSection s cfg.storage_type).db_size_mb = none ∧
      (dbSection s cfg.storage_type).recs = []) ∧
    (s.log_size_mb = none → (logSection s cfg).pen = 0) ∧
    (∀ str, psiCpuSection { s with psi := some (.raw str) } = ⟨0, []⟩ ∧
      diskSection { s with psi := some (.raw str) } cfg.storage_type =
        diskSection s cfg.storage_type ∧
      calc_app_score { s with psi := some (.raw str) } cfg = calc_app_score s cfg) := by
  refine ⟨?_, ?_, ?_, ?_, ?_, ?_⟩
  · intro hpsi hcpu
    rw [psiCpuSection_eq]
    rcases hp : s.psi with _ | v
    · rcases hc : s.cpu with _ | w
      · rfl
      · rcases w with _ | _ | q | str
        · rfl
        · rfl
        · exact absurd hc (hcpu q)
        · rfl
    · rcases v with _ | _ | q | str
      · rcases hc : s.cpu with _ | w
        · rfl
        · rcases w with _ | _ | q | str
          · rfl
          · rfl
          · exact absurd hc (hcpu q)
          · rfl
      · rcases hc : s.cpu with _ | w
        · rfl
        · rcases w with _ | _ | q | str
          · rfl
          · rfl
          · exact absurd hc (hcpu q)
          · rfl
      · exact absurd hp (hpsi q)
      · rfl
  · intro hdisk
    rw [diskSection_eq]
    rcases hd : s.disk_free with _ | v
    · rfl
    · rcases v with _ | _ | q | str
      · rfl
      · rfl
      · exact absurd hd (hdisk q)
      · rfl
  · intro h
    constructor
    · rw [get_database_size_eq, h]
    · simp [recorderSection, h]
  · intro h
    simp [dbSection, h]
  · intro h
    rcases hl : cfg.log_file_path with _ | p
    · simp [logSection, hl]
    · simp [logSection, hl, h]
  · intro str
    refine ⟨?_, rfl, rfl⟩
    rw [psiCpuSection_eq]

/-- A snapshot in which every metric read fails: PSI unavailable, no
CPU entity, no disk entity, recorder lookup raising, no database file,
no log file. -/
def snapAllMissing : Snapshot :=
  ⟨some .unavailable, none, none, some .unknown, [], none, none, none⟩

/-- SD-card configuration with a configured log path whose file is
missing. -/
def cfgSDLog : HaghsConfig := ⟨"SD Card", some "/config/home-assistant.log"⟩

/-- Witness for C7 at the all-failures snapshot. -/
theorem c7_failures_witness :
    (psiCpuSection snapAllMissing).pen = 0 ∧
    (diskSection snapAllMissing cfgSDLog.storage_type).pen = 0 ∧
    (get_database_size snapAllMissing = none ∧
      (recorderSection snapAllMissing cfgSDLog.storage_type).pen = 0) ∧
    ((dbSection snapAllMissing cfgSDLog.storage_type).pen = 0 ∧
      (dbSection snapAllMissing cfgSDLog.storage_type).db_size_mb = none ∧
      (dbSection snapAllMissing cfgSDLog.storage_type).recs = []) ∧
    (logSection snapAllMissing cfgSDLog).pen = 0 ∧
    (psiCpuSection { snapAllMissing with psi := some (.raw "n/a") } = ⟨0, []⟩ ∧
      diskSection { snapAllMissing with psi := some (.raw "n/a") } cfgSDLog.storage_type =
        diskSection snapAllMissing cfgSDLog.storage_type ∧
      calc_app_score { snapAllMissing with psi := some (.raw "n/a") } cfgSDLog =
        calc_app_score snapAllMissing cfgSDLog) := by
  have h := c7_failures_degrade_neutrally snapAllMissing cfgSDLog
  exact ⟨h.1 (by intro q hq; simp [snapAllMissing] at hq) (by intro q hq; simp [snapAllMissing] at hq),
    h.2.1 (by intro q hq; simp [snapAllMissing] at hq),
    h.2.2.1 rfl, h.2.2.2.1 rfl, h.2.2.2.2.1 rfl, h.2.2.2.2.2 "n/a"⟩


/-- A snapshot whose evaluation produces no findings at all: PSI
unavailable with no CPU fallback entity, no disk entity, a non-sqlite
recorder with no tunables, one healthy entity, no log file. -/
def snapNoFindings : Snapshot :=
  ⟨some .unavailable, none, none, none, [entKitchen],
    some ⟨none, none, "mysql://core"⟩, none, none⟩

/-- C9 counterexample: an evaluation with no findings publishes an
empty recommendation list — there is no single `all healthy` marker
element (and no category structure at all). -/
theorem c9_counterexample :
    (async_update_sensor snapNoFindings cfgSSD 0).attributes.recommendations = [] ∧
      ∀ m : Rec, (async_update_sensor snapNoFindings cfgSSD 0).attributes.recommendations ≠ [m] := by
  have h : (async_update_sensor snapNoFindings cfgSSD 0).attributes.recommendations = [] := rfl
  refine ⟨h, ?_⟩
  intro m
  rw [h]
  simp

lemma zombieSection_recs_of_no_zombies (s : Snapshot) (h : zombies s = []) :
    (zombieSection s).recs = [] := by
  simp only [zombieSection, h, List.length_nil]
  (repeat' split) <;> first | rfl | omega

/-- C9 amended: an evaluation that produces no findings publishes the
empty recommendation list — the integration emits no `all healthy`
marker and no category grouping; findings, when they exist, are
published as one flat ordered list. -/
theorem c9_amended_empty_recommendations (s : Snapshot) (cfg : HaghsConfig) (now : ℕ)
    (p f v : ℚ) (r : RecorderInfo)
    (hp : s.psi = some (.num p)) (hp5 : p ≤ 5)
    (hd : s.disk_free = some (.num f)) (hf : 20 ≤ f)
    (hr : s.recorder = some r) (hci : r.commit_interval = none) (hkd : r.keep_days = none)
    (hdb : get_database_size s = some v) (hv0 : 0 < v) (hv : v ≤ 1000)
    (hlog : cfg.log_file_path = none)
    (hupd : pending_updates s = [])
    (hzb : zombies s = []) :
    (async_update_sensor s cfg now).attributes.recommendations = [] := by
  have hhw : (calc_hardware_score s cfg).recs = [] := by
    have h1 : psiCpuSection s = ⟨0, []⟩ := by
      rw [psiCpuSection_eq, hp]
      simp only
      rw [if_neg (by rw [show (5.0 : ℚ) = 5 by norm_num]; linarith)]
    have h2 : diskSection s cfg.storage_type = ⟨0, []⟩ := by
      rw [diskSection_eq, hd]
      simp only
      rw [if_neg (by split <;> linarith), if_neg (by split <;> linarith)]
    simp [calc_hardware_score, h1, h2]
  have happ : (calc_app_score s cfg).recs = [] := by
    have hwarn : 1000 ≤ final_limit_warn (total_entities s) cfg.storage_type := by
      rw [final_limit_warn, base_limit_mb]
      have : (0 : ℚ) ≤ (total_entities s : ℚ) * 2.5 := by positivity
      split <;> (rw [le_min_iff]; constructor <;> linarith)
    have hwarnnn : (0 : ℚ) ≤ final_limit_warn (total_entities s) cfg.storage_type := by
      linarith
    have h1 : (dbSection s cfg.storage_type).recs = [] := by
      simp only [dbSection, hdb]
      rw [if_pos (ne_of_gt hv0), if_neg (by push_neg; nlinarith), if_neg (by push_neg; linarith)]
    have h2 : recorderSection s cfg.storage_type = ⟨0, []⟩ := by
      simp [recorderSection, hr, hci, hkd]
    have h3 : (updatesSection s).recs = [] := by
      simp [updatesSection, hupd]
    have h4 : logSection s cfg = ⟨0, []⟩ := by
      simp [logSection, hlog]
    have h5 := zombieSection_recs_of_no_zombies s hzb
    simp [calc_app_score, h1, h2, h3, h4, h5]
  simp [async_update_sensor, hhw, happ]

/-- A snapshot producing no findings through the numeric paths: PSI of
1, 100GB free disk, a sqlite recorder with a 100MB database, one
healthy entity. -/
def snapHealthyNumeric : Snapshot :=
  ⟨some (.num 1), none, none, some (.num 100), [entKitchen],
    some ⟨none, none, "sqlite://home"⟩, some 100, none⟩

/-- Witness for the amended C9 at a healthy numeric snapshot. -/
theorem c9_amended_empty_recommendations_witness :
    (async_update_sensor snapHealthyNumeric cfgSSD 0).attributes.recommendations = [] :=
  c9_amended_empty_recommendations snapHealthyNumeric cfgSSD 0 1 100 100
    ⟨none, none, "sqlite://home"⟩ rfl (by norm_num) rfl (by norm_num) rfl rfl rfl rfl
    (by norm_num) (by norm_num) rfl rfl rfl


end Haghs
